import Mathlib

/-!
Verification development for the dependency-ordered deliverable synthesis
pipeline of the strategy-factory repository.

The Python source is shallowly embedded: pure functions become Lean
functions; the stateful orchestration loops become explicit state passing;
floating-point cost arithmetic is embedded with exact rationals; fallible
provider calls are driven by explicit attempt oracles.  Components of the
repository that are referenced but whose module is not present in the
source tree (the Progress Tracker, `progress_tracker.py`) are modelled from
the specification and marked as such in their doc comments.
-/

namespace StrategyFactory

/-- Python truthiness of an optional string: `None` and the empty string
are falsy, every other string is truthy.  Used wherever the source tests
an `Optional[str]` with `if x:` or `if not x:`. -/
def pyTruthy : Option String → Bool
  | none => false
  | some s => !s.isEmpty

/-- One entry of the static `DELIVERABLES` table of `config.py`:
human name, output format, prerequisite ids and reference-guide files. -/
structure DeliverableConfig where
  name : String
  format : String
  dependencies : List String
  tldrGuides : List String
  deriving Repr, DecidableEq

/-- The static `DELIVERABLES` configuration table (`config.py`, lines
51-191), in insertion order (Python dicts preserve insertion order, which
determines the default target list of `synthesize`). -/
def DELIVERABLES : List (String × DeliverableConfig) := [
  ("01_tech_inventory",
    { name := "Technology Inventory & Data Infrastructure Assessment",
      format := "markdown", dependencies := [],
      tldrGuides := ["ceos-guide-to-generative-ai-second-edition_TLDR.md"] }),
  ("02_pain_points",
    { name := "Pain Point Matrix by Department",
      format := "markdown", dependencies := [],
      tldrGuides := ["us-state-of-gen-ai-2024-q4_TLDR.md"] }),
  ("03_mermaid_diagrams",
    { name := "Mermaid Diagrams (Current State + Future State)",
      format := "markdown",
      dependencies := ["01_tech_inventory", "02_pain_points"],
      tldrGuides := [] }),
  ("04_maturity_assessment",
    { name := "AI Maturity Model & Readiness Assessment",
      format := "markdown",
      dependencies := ["01_tech_inventory", "02_pain_points"],
      tldrGuides := ["bcg-wheres-the-value-in-ai_TLDR.md",
        "CRI-research-brief-Harnessing-the-value-of-AI-AD_100925_TLDR.md"] }),
  ("05_roadmap",
    { name := "30/60/90/180/360 Implementation Roadmap",
      format := "markdown",
      dependencies := ["04_maturity_assessment", "14_use_case_library"],
      tldrGuides := ["seizing-the-agentic-ai-advantage_TLDR.md",
        "the-agentic-organization-contours-of-the-next-paradigm-for-the-ai-era_TLDR.md"] }),
  ("06_quick_wins",
    { name := "Quick Wins List",
      format := "markdown",
      dependencies := ["14_use_case_library", "04_maturity_assessment"],
      tldrGuides := ["identifying-and-scaling-ai-use-cases_TLDR.md",
        "bcg-wheres-the-value-in-ai_TLDR.md"] }),
  ("07_vendor_comparison",
    { name := "Vendor Comparison & Build vs Buy Framework",
      format := "markdown",
      dependencies := ["01_tech_inventory", "14_use_case_library"],
      tldrGuides := ["ceos-guide-to-generative-ai-second-edition_TLDR.md"] }),
  ("08_license_consolidation",
    { name := "License Consolidation Recommendations",
      format := "markdown",
      dependencies := ["01_tech_inventory", "07_vendor_comparison"],
      tldrGuides := ["ceos-guide-to-generative-ai-second-edition_TLDR.md"] }),
  ("09_roi_calculator",
    { name := "ROI Calculator & Cost Analysis",
      format := "markdown",
      dependencies := ["06_quick_wins", "14_use_case_library"],
      tldrGuides := ["google_cloud_roi_of_ai_2025_TLDR.md",
        "bcg-wheres-the-value-in-ai_TLDR.md"] }),
  ("10_ai_policy",
    { name := "AI Acceptable Use Policy Template",
      format := "markdown",
      dependencies := ["04_maturity_assessment"],
      tldrGuides := ["ceos-guide-to-generative-ai-second-edition_TLDR.md",
        "kpmg-agentic-ai-advantage_TLDR.md"] }),
  ("11_data_governance",
    { name := "Data Governance Framework",
      format := "markdown",
      dependencies := ["01_tech_inventory", "10_ai_policy"],
      tldrGuides := ["ceos-guide-to-generative-ai-second-edition_TLDR.md"] }),
  ("12_prompt_library",
    { name := "Prompt Library Starter Kit",
      format := "markdown",
      dependencies := ["14_use_case_library"],
      tldrGuides := [] }),
  ("13_glossary",
    { name := "Glossary of AI Terms",
      format := "markdown", dependencies := [], tldrGuides := [] }),
  ("14_use_case_library",
    { name := "Department-Specific Use Case Library",
      format := "markdown",
      dependencies := ["01_tech_inventory", "02_pain_points"],
      tldrGuides := ["identifying-and-scaling-ai-use-cases_TLDR.md",
        "kpmg-agentic-ai-advantage_TLDR.md",
        "seizing-the-agentic-ai-advantage_TLDR.md"] }),
  ("15_change_management",
    { name := "Change Management & Training Playbook",
      format := "markdown",
      dependencies := ["05_roadmap", "14_use_case_library"],
      tldrGuides := ["the-agentic-organization-contours-of-the-next-paradigm-for-the-ai-era_TLDR.md",
        "seizing-the-agentic-ai-advantage_TLDR.md"] }),
  ("executive_summary_deck",
    { name := "Executive Summary Deck",
      format := "pptx", dependencies := ["ALL_MARKDOWN"], tldrGuides := [] }),
  ("full_findings_presentation",
    { name := "Full Findings & Recommendations Presentation",
      format := "pptx", dependencies := ["ALL_MARKDOWN"], tldrGuides := [] }),
  ("final_strategy_report",
    { name := "Final AI Strategy Report",
      format := "docx", dependencies := ["ALL_MARKDOWN"], tldrGuides := [] }),
  ("statement_of_work",
    { name := "Statement of Work / Engagement Letter",
      format := "docx",
      dependencies := ["05_roadmap", "06_quick_wins", "09_roi_calculator"],
      tldrGuides := [] })]

/-- `SynthesisOrchestrator.GENERATION_ORDER` (`synthesis/orchestrator.py`,
lines 40-51): the static dependency levels used to order generation. -/
def GENERATION_ORDER : List (List String) := [
  ["01_tech_inventory", "02_pain_points", "13_glossary"],
  ["04_maturity_assessment", "14_use_case_library"],
  ["03_mermaid_diagrams", "06_quick_wins", "07_vendor_comparison"],
  ["05_roadmap", "08_license_consolidation", "09_roi_calculator", "10_ai_policy"],
  ["11_data_governance", "12_prompt_library", "15_change_management"]]

/-- `DELIVERABLES.get(deliverable_id)` over an arbitrary table. -/
def configOfT (table : List (String × DeliverableConfig)) (id : String) :
    Option DeliverableConfig :=
  (table.find? (fun p => p.1 == id)).map Prod.snd

/-- `DELIVERABLES.get(deliverable_id, {}).get("dependencies", [])`. -/
def dependenciesOf (table : List (String × DeliverableConfig)) (id : String) :
    List String :=
  ((configOfT table id).map (fun c => c.dependencies)).getD []

/-- `[d_id for d_id, config in table.items() if config.get("format") ==
"markdown"]`: the markdown deliverable ids in table order. -/
def markdownIds (table : List (String × DeliverableConfig)) : List String :=
  (table.filter (fun p => p.2.format == "markdown")).map Prod.fst

/-- `RETRY_CONFIG` of `config.py` (lines 256-262). -/
structure RetryConfig where
  maxRetries : Nat
  initialDelay : Nat
  maxDelay : Nat
  backoffMultiplier : Nat
  deriving Repr, DecidableEq

/-- The concrete retry configuration shared by both provider clients. -/
def RETRY_CONFIG : RetryConfig :=
  { maxRetries := 3, initialDelay := 5, maxDelay := 60, backoffMultiplier := 2 }

/-- The keys of the `PROMPTS` map of `synthesis/prompts/__init__.py`: the
deliverable ids that have a prompt template. -/
def PROMPT_IDS : List String := [
  "01_tech_inventory", "02_pain_points", "03_mermaid_diagrams",
  "04_maturity_assessment", "05_roadmap", "06_quick_wins",
  "07_vendor_comparison", "08_license_consolidation", "09_roi_calculator",
  "10_ai_policy", "11_data_governance", "12_prompt_library", "13_glossary",
  "14_use_case_library", "15_change_management"]

/-- `get_prompt` of `synthesis/prompts/__init__.py`: `PROMPTS.get(id, "")`.
The individual prompt modules are not part of the embedded core; their
texts are abstracted to a fixed non-empty placeholder (only truthiness of
the returned template is ever inspected by the orchestrator). -/
def getPromptDefault (id : String) : String :=
  if PROMPT_IDS.contains id then "PROMPT_TEMPLATE" else ""

/-- `SynthesisResult` of `synthesis/gemini_client.py` (timestamps embedded
as abstract ticks, costs as exact rationals). -/
structure SynthesisResult where
  content : String
  modelUsed : String
  timestamp : Nat
  promptTokens : Nat
  completionTokens : Nat
  costEstimate : Rat
  error : Option String := none
  deriving Repr, DecidableEq

/-- Outcome of one raw provider attempt inside the retry loop: either the
response text or the exception message. -/
inductive AttemptOutcome where
  | ok (content : String)
  | err (msg : String)
  deriving Repr, DecidableEq

/-- `GeminiClient.COST_PER_1M_INPUT` (\$0.075 per 1M input tokens). -/
def COST_PER_1M_INPUT : Rat := 75 / 1000

/-- `GeminiClient.COST_PER_1M_OUTPUT` (\$0.30 per 1M output tokens). -/
def COST_PER_1M_OUTPUT : Rat := 3 / 10

/-- `GeminiClient._count_tokens`: rough estimate of about 4 characters per
token, `len(text) // 4`. -/
def countTokens (text : String) : Nat := text.length / 4

/-- `GeminiClient._estimate_cost`. -/
def estimateCost (inputTokens outputTokens : Nat) : Rat :=
  (inputTokens : Rat) / 1000000 * COST_PER_1M_INPUT
    + (outputTokens : Rat) / 1000000 * COST_PER_1M_OUTPUT

/-- Observable trace of one `GeminiClient.generate` call: the returned
`SynthesisResult`, how many attempts were issued, the backoff sleeps
performed between failed attempts, and the amount added to the client
cost accumulator `total_cost`. -/
structure GenerateTrace where
  result : SynthesisResult
  attemptsMade : Nat
  sleeps : List Nat
  costAdded : Rat
  deriving Repr, DecidableEq

/-- The all-retries-failed return value of `GeminiClient.generate`
(lines 179-188): empty content, zero token counts and cost, and the
string of the last error (`str(None)` is the Python rendering when no
attempt ever ran). -/
def generateFailureResult (modelName : String) (lastError : Option String) :
    SynthesisResult :=
  { content := "", modelUsed := modelName, timestamp := 0,
    promptTokens := 0, completionTokens := 0, costEstimate := 0,
    error := some (lastError.getD "None") }

/-- The successful return value of `GeminiClient.generate` for response
`content` (lines 145-170), together with the token accounting performed
on success. -/
def generateSuccessResult (modelName prompt : String)
    (systemInstruction : Option String) (content : String) :
    SynthesisResult :=
  let inputTokens := countTokens prompt +
    (if pyTruthy systemInstruction then countTokens (systemInstruction.getD "") else 0)
  let outputTokens := countTokens content
  { content := content, modelUsed := modelName, timestamp := 0,
    promptTokens := inputTokens, completionTokens := outputTokens,
    costEstimate := estimateCost inputTokens outputTokens, error := none }

/-- The retry loop of `GeminiClient.generate` (lines 120-188), driven by
an oracle giving each attempt its outcome.  `remaining` counts the loop
iterations left, `attempt` is the current index, `delay` the current
backoff delay; a sleep of `delay` seconds happens after a failed attempt
exactly when it was not the last one, and the delay then becomes
`min(delay * backoff, max_delay)`. -/
def generateGo (oracle : Nat → AttemptOutcome) (modelName prompt : String)
    (systemInstruction : Option String) :
    Nat → Nat → Nat → Option String → GenerateTrace
  | 0, attempt, _, lastError =>
    { result := generateFailureResult modelName lastError,
      attemptsMade := attempt, sleeps := [], costAdded := 0 }
  | remaining + 1, attempt, delay, _ =>
    match oracle attempt with
    | .ok content =>
      let r := generateSuccessResult modelName prompt systemInstruction content
      { result := r, attemptsMade := attempt + 1, sleeps := [],
        costAdded := r.costEstimate }
    | .err m =>
      if remaining > 0 then
        let rest := generateGo oracle modelName prompt systemInstruction
          remaining (attempt + 1)
          (min (delay * RETRY_CONFIG.backoffMultiplier) RETRY_CONFIG.maxDelay)
          (some m)
        { rest with sleeps := delay :: rest.sleeps }
      else
        generateGo oracle modelName prompt systemInstruction
          remaining (attempt + 1) delay (some m)

/-- `GeminiClient.generate`: at most `max_retries` attempts with
exponential backoff; exhaustion returns a `SynthesisResult` carrying the
last error instead of raising. -/
def generate (oracle : Nat → AttemptOutcome) (modelName prompt : String)
    (systemInstruction : Option String) : GenerateTrace :=
  generateGo oracle modelName prompt systemInstruction
    RETRY_CONFIG.maxRetries 0 RETRY_CONFIG.initialDelay none

/-- One call made against a `GeminiClient`: the prompt, the optional
system instruction and the attempt oracle of the provider. -/
structure GenCall where
  prompt : String
  systemInstruction : Option String
  oracle : Nat → AttemptOutcome

/-- The value of `GeminiClient.total_cost` after a sequence of `generate`
calls (the accumulator starts at `0.0` in `__init__` and each call adds
its estimated cost on success, nothing on exhausted retries). -/
def geminiTotalCost (modelName : String) (calls : List GenCall) : Rat :=
  calls.foldl
    (fun acc c =>
      acc + (generate c.oracle modelName c.prompt c.systemInstruction).costAdded)
    0

/-- `SearchResult` of `models.py` (the fields inspected by the research
client). -/
structure SearchResult where
  title : String
  url : String
  snippet : String
  deriving Repr, DecidableEq

/-- `QueryResult` of `models.py`, with timestamps as rational seconds and
costs as exact rationals. -/
structure QueryResult where
  query : String
  modelUsed : String
  results : List SearchResult
  resultCount : Nat
  timestamp : Rat
  costEstimate : Rat
  error : Option String := none
  deriving Repr, DecidableEq

/-- `PERPLEXITY_COSTS` of `config.py`: estimated dollar cost per 1K
input/output tokens for each Perplexity model. -/
def PERPLEXITY_COSTS : List (String × (Rat × Rat)) := [
  ("sonar", (1 / 1000, 1 / 1000)),
  ("sonar-pro", (3 / 1000, 15 / 1000)),
  ("sonar-reasoning", (1 / 1000, 5 / 1000)),
  ("sonar-reasoning-pro", (2 / 1000, 8 / 1000)),
  ("sonar-deep-research", (2 / 1000, 8 / 1000))]

/-- `PerplexityClient._estimate_cost` with its default token counts of
500 input and 1000 output tokens, falling back to `(0.001, 0.001)` for an
unknown model. -/
def perplexityEstimateCost (model : String)
    (inputTokens : Nat := 500) (outputTokens : Nat := 1000) : Rat :=
  let costs := (((PERPLEXITY_COSTS.find? (fun p => p.1 == model)).map
    Prod.snd).getD (1 / 1000, 1 / 1000))
  (inputTokens : Rat) / 1000 * costs.1 + (outputTokens : Rat) / 1000 * costs.2

/-- Outcome of one raw Perplexity API attempt inside the retry loop. -/
inductive SearchAttempt where
  | ok (results : List SearchResult)
  | err (msg : String)
  deriving Repr, DecidableEq

/-- Observable trace of one `PerplexityClient._execute_with_retry` call:
the returned `QueryResult`, the number of attempts issued, and the amounts
added to `total_cost` and `query_count`. -/
structure SearchTrace where
  result : QueryResult
  attemptsMade : Nat
  costAdded : Rat
  queriesAdded : Nat
  deriving Repr, DecidableEq

/-- The retry loop of `PerplexityClient._execute_with_retry`
(`research/perplexity_client.py`, lines 259-327), driven by an attempt
oracle; on success the estimated cost is added to `total_cost` and
`query_count` is incremented, on exhaustion a `QueryResult` with the last
error and zero cost is returned. -/
def executeWithRetryGo (oracle : Nat → SearchAttempt) (query model : String)
    (now : Rat) : Nat → Nat → Option String → SearchTrace
  | 0, attempt, lastError =>
    { result :=
        { query := query, modelUsed := model, results := [],
          resultCount := 0, timestamp := now, costEstimate := 0,
          error := some (lastError.getD "None") },
      attemptsMade := attempt, costAdded := 0, queriesAdded := 0 }
  | remaining + 1, attempt, _ =>
    match oracle attempt with
    | .ok results =>
      let cost := perplexityEstimateCost model
      { result :=
          { query := query, modelUsed := model, results := results,
            resultCount := results.length, timestamp := now,
            costEstimate := cost, error := none },
        attemptsMade := attempt + 1, costAdded := cost, queriesAdded := 1 }
    | .err m =>
      executeWithRetryGo oracle query model now remaining (attempt + 1) (some m)

/-- `PerplexityClient._execute_with_retry` (backoff sleeps happen between
failed attempts exactly as in `GeminiClient.generate`; they do not affect
the returned result and are omitted from this trace). -/
def executeWithRetry (oracle : Nat → SearchAttempt) (query model : String)
    (now : Rat) : SearchTrace :=
  executeWithRetryGo oracle query model now RETRY_CONFIG.maxRetries 0 none

/-- `CacheEntry` of `research/perplexity_client.py`. -/
structure CacheEntry where
  queryHash : String
  query : String
  result : QueryResult
  timestamp : Rat
  ttlHours : Rat
  deriving Repr, DecidableEq

/-- The mutable state of a `PerplexityClient`: cache map, cumulative cost
and query count. -/
structure PerplexityClientState where
  enableCache : Bool
  cache : List (String × CacheEntry)
  totalCost : Rat
  queryCount : Nat
  deriving Repr, DecidableEq

/-- Lookup in an insertion-ordered string-keyed association list
(Python dict access). -/
def assocFind {α : Type} (l : List (String × α)) (k : String) : Option α :=
  (l.find? (fun p => p.1 == k)).map Prod.snd

/-- Insertion-ordered overwrite-or-append update of a string-keyed
association list (Python dict assignment). -/
def assocSet {α : Type} (l : List (String × α)) (k : String) (v : α) :
    List (String × α) :=
  if l.any (fun p => p.1 == k) then
    l.map (fun p => if p.1 == k then (k, v) else p)
  else l ++ [(k, v)]

/-- `PerplexityClient._is_cache_valid`: the entry age in hours must be
strictly below its time-to-live. -/
def isCacheValid (now : Rat) (e : CacheEntry) : Bool :=
  decide ((now - e.timestamp) / 3600 < e.ttlHours)

/-- Result of one `PerplexityClient.search` call: the returned
`QueryResult`, the successor client state, and how many provider attempts
were issued (0 on a cache hit). -/
structure SearchOutcome where
  result : QueryResult
  state : PerplexityClientState
  providerAttempts : Nat
  deriving Repr, DecidableEq

/-- The cache-miss tail of `PerplexityClient.search` (lines 221-257):
execute with retry, update the accumulators, store the fresh entry under
the derived cache key when caching is enabled. -/
def searchExecute (st : PerplexityClientState) (now : Rat)
    (cacheKey queryStr model : String) (cacheTtlHours : Rat)
    (oracle : Nat → SearchAttempt) : SearchOutcome :=
  let tr := executeWithRetry oracle queryStr model now
  let st1 : PerplexityClientState :=
    { st with totalCost := st.totalCost + tr.costAdded,
              queryCount := st.queryCount + tr.queriesAdded }
  let st2 : PerplexityClientState :=
    if st.enableCache then
      { st1 with
          cache := assocSet st1.cache cacheKey
            { queryHash := cacheKey, query := queryStr, result := tr.result,
              timestamp := now, ttlHours := cacheTtlHours } }
    else st1
  { result := tr.result, state := st2, providerAttempts := tr.attemptsMade }

/-- `PerplexityClient.search` (lines 169-257) for a query whose cache key
has been derived (the MD5 key derivation itself is injective bookkeeping
and is passed in already computed): a valid cached entry is returned
as-is with no provider attempt and no state change; otherwise the query
is executed with retry and cached. -/
def search (st : PerplexityClientState) (now : Rat)
    (cacheKey queryStr model : String) (cacheTtlHours : Rat)
    (oracle : Nat → SearchAttempt) : SearchOutcome :=
  match (if st.enableCache then assocFind st.cache cacheKey else none) with
  | some entry =>
    if isCacheValid now entry then
      { result := entry.result, state := st, providerAttempts := 0 }
    else
      searchExecute st now cacheKey queryStr model cacheTtlHours oracle
  | none => searchExecute st now cacheKey queryStr model cacheTtlHours oracle

/-- One call made against a `PerplexityClient`: the query, model and the
attempt oracle of the provider (cache disabled, so every call reaches
`_execute_with_retry`; cache hits leave the accumulators untouched and
are covered separately). -/
structure PCall where
  query : String
  model : String
  now : Rat
  oracle : Nat → SearchAttempt

/-- The value of `PerplexityClient.total_cost` after a sequence of
`_execute_with_retry` calls (the accumulator starts at `0.0`). -/
def perplexityTotalCost (calls : List PCall) : Rat :=
  calls.foldl
    (fun acc c => acc + (executeWithRetry c.oracle c.query c.model c.now).costAdded)
    0

/-- `DeliverableContent` of `models.py`. -/
structure DeliverableContent where
  deliverableId : String
  name : String
  format : String
  content : String := ""
  filePath : Option String := none
  generatedAt : Option Nat := none
  synthesisCost : Rat := 0
  error : Option String := none
  deriving Repr, DecidableEq

/-- One entry of `SynthesisOrchestrator.errors` (`_record_error`,
timestamps omitted). -/
structure ErrorRecord where
  deliverableId : String
  error : String
  deriving Repr, DecidableEq

/-- The mutable state threaded through `SynthesisOrchestrator.synthesize`,
extended with two observation traces: `processed` records the ids in
the order the level loops reach them, and `calls` records the ids for
which a synthesis-provider call (`generate_markdown`) was issued. -/
structure SynthState where
  generated : List (String × DeliverableContent)
  errors : List ErrorRecord
  processed : List String
  calls : List String
  deriving Repr, DecidableEq

/-- The fresh state of a newly constructed orchestrator. -/
def initialSynthState : SynthState :=
  { generated := [], errors := [], processed := [], calls := [] }

/-- The loop body of `SynthesisOrchestrator._check_dependencies`
(lines 240-252): the sentinel `ALL_MARKDOWN` is skipped with `continue`,
any other dependency absent from `generated_content` returns `False`. -/
def checkDepsLoop (generatedKeys : List String) : List String → Bool
  | [] => true
  | dep :: rest =>
    if dep == "ALL_MARKDOWN" then checkDepsLoop generatedKeys rest
    else if generatedKeys.contains dep then checkDepsLoop generatedKeys rest
    else false

/-- `SynthesisOrchestrator._check_dependencies`. -/
def checkDependencies (table : List (String × DeliverableConfig))
    (generatedKeys : List String) (id : String) : Bool :=
  checkDepsLoop generatedKeys (dependenciesOf table id)

/-- `SynthesisOrchestrator._generate_deliverable` (lines 164-222): fetch
the prompt template (an empty template is an immediate failure record);
otherwise invoke the synthesis provider and wrap its result.  The context
building and the Gemini internals sit behind the `provider` function,
which returns the `SynthesisResult` of `generate_markdown` for the given
deliverable id; the second component records whether a provider call was
issued. -/
def generateDeliverable (table : List (String × DeliverableConfig))
    (getPromptF : String → String) (provider : String → SynthesisResult)
    (id : String) : DeliverableContent × Bool :=
  let name := ((configOfT table id).map (fun c => c.name)).getD id
  if (getPromptF id).isEmpty then
    ({ deliverableId := id, name := name, format := "markdown",
       error := some ("No prompt template found for " ++ id) }, false)
  else
    let result := provider id
    if pyTruthy result.error then
      ({ deliverableId := id, name := name, format := "markdown",
         error := result.error }, true)
    else
      ({ deliverableId := id, name := name, format := "markdown",
         content := result.content, generatedAt := some result.timestamp,
         synthesisCost := result.costEstimate }, true)

/-- One iteration of the inner loop of `SynthesisOrchestrator.synthesize`
(lines 118-152): check dependencies (an unmet prerequisite records the
error "Dependencies not met" and skips generation), otherwise generate
and either register the content or record its error. -/
def processDeliverable (table : List (String × DeliverableConfig))
    (getPromptF : String → String) (provider : String → SynthesisResult)
    (s : SynthState) (id : String) : SynthState :=
  if checkDependencies table (s.generated.map Prod.fst) id then
    let g := generateDeliverable table getPromptF provider id
    let s1 : SynthState :=
      { s with processed := s.processed ++ [id],
               calls := s.calls ++ (if g.2 then [id] else []) }
    if pyTruthy g.1.error then
      { s1 with errors := s1.errors ++
          [{ deliverableId := id, error := g.1.error.getD "Unknown error" }] }
    else
      { s1 with generated := assocSet s1.generated id g.1 }
  else
    { s with processed := s.processed ++ [id],
             errors := s.errors ++
               [{ deliverableId := id, error := "Dependencies not met" }] }

/-- One iteration of the outer loop of `synthesize` (line 115-116): keep
the level members that are targeted, then process them in level order. -/
def runLevel (table : List (String × DeliverableConfig))
    (getPromptF : String → String) (provider : String → SynthesisResult)
    (targets : List String) (s : SynthState) (level : List String) :
    SynthState :=
  (level.filter (fun d => targets.contains d)).foldl
    (processDeliverable table getPromptF provider) s

/-- The target resolution of `synthesize` (lines 98-106): an explicitly
passed non-empty list wins, otherwise (Python falsiness of `None` and of
the empty list) all markdown deliverables of the table, in table order. -/
def resolveTargets (table : List (String × DeliverableConfig))
    (deliverables? : Option (List String)) : List String :=
  match deliverables? with
  | some ds => if ds.isEmpty then markdownIds table else ds
  | none => markdownIds table

/-- `SynthesisOrchestrator.synthesize` (lines 80-162) on a fresh
orchestrator, as the final orchestrator state: generated contents
(the `deliverables` map of the returned `SynthesisOutput`), recorded
errors, and the two observation traces. -/
def synthesizeRun (table : List (String × DeliverableConfig))
    (order : List (List String)) (getPromptF : String → String)
    (provider : String → SynthesisResult)
    (deliverables? : Option (List String)) : SynthState :=
  let targets := resolveTargets table deliverables?
  order.foldl (runLevel table getPromptF provider targets) initialSynthState

/-- The key set of the `deliverables` map of the `SynthesisOutput` built
at the end of `synthesize`. -/
def generatedIds (s : SynthState) : List String := s.generated.map Prod.fst

/-- The deliverable ids carrying a recorded error. -/
def errorIds (s : SynthState) : List String :=
  s.errors.map (fun e => e.deliverableId)

/-- A deliverable is resolved in a state when it has either completed
(content registered) or failed (error recorded). -/
def resolvedIn (s : SynthState) (id : String) : Prop :=
  id ∈ generatedIds s ∨ id ∈ errorIds s

/-- `DeliverableStatus` of `models.py`. -/
inductive DeliverableStatus where
  | pending
  | inProgress
  | completed
  | failed
  | skipped
  deriving Repr, DecidableEq

/-- `DeliverableProgress` of `models.py` (timestamps omitted). -/
structure DeliverableProgress where
  status : DeliverableStatus := DeliverableStatus.pending
  filePath : Option String := none
  error : Option String := none
  retryCount : Nat := 0
  deriving Repr, DecidableEq

/-- `PhaseProgress` of `models.py` (timestamps omitted). -/
structure PhaseProgress where
  name : String
  status : DeliverableStatus := DeliverableStatus.pending
  summary : Option String := none
  deriving Repr, DecidableEq

/-- `PipelineState` of `models.py`: the resumability ledger persisted to
`state.json` (timestamps omitted, costs as exact rationals, the cached
research output abstracted to its presence). -/
structure PipelineState where
  companyName : String
  companySlug : String
  currentPhase : String := "research"
  phases : List (String × PhaseProgress) := []
  deliverables : List (String × DeliverableProgress) := []
  researchPresent : Bool := false
  totalResearchCost : Rat := 0
  totalSynthesisCost : Rat := 0
  totalCost : Rat := 0
  errors : List ErrorRecord := []
  deriving Repr, DecidableEq

/-- Modelled from the spec: `ProgressTracker.get_completed_deliverables`
(the module `strategy_factory/progress_tracker.py` is imported by
`main.py` but is not present under the source tree).  Spec 4.2: a pure
read of the ledger returning the deliverable ids recorded as completed. -/
def getCompletedDeliverables (s : PipelineState) : List String :=
  (s.deliverables.filter
    (fun p => p.2.status == DeliverableStatus.completed)).map Prod.fst

/-- Modelled from the spec: `ProgressTracker.complete_deliverable`
(module absent from the source tree).  Spec 4.2: idempotent overwrite of
the deliverable record to `completed` with its file path. -/
def completeDeliverable (s : PipelineState) (id path : String) :
    PipelineState :=
  { s with
      deliverables := assocSet s.deliverables id
        { status := DeliverableStatus.completed, filePath := some path } }

/-- Modelled from the spec: `ProgressTracker.start_phase` (module absent
from the source tree).  Spec 4.2: the phase record moves to
`in_progress` and the ledger current phase is updated. -/
def startPhase (s : PipelineState) (phase : String) : PipelineState :=
  { s with
      currentPhase := phase,
      phases := assocSet s.phases phase
        { name := phase, status := DeliverableStatus.inProgress } }

/-- Modelled from the spec: `ProgressTracker.complete_phase` (module
absent from the source tree).  Spec 4.2: the phase record moves to
`completed` with a summary. -/
def completePhase (s : PipelineState) (phase summary : String) :
    PipelineState :=
  { s with
      phases := assocSet s.phases phase
        { name := phase, status := DeliverableStatus.completed,
          summary := some summary } }

/-- Modelled from the spec: `ProgressTracker.fail_phase` (module absent
from the source tree).  Spec 4.2: the phase record moves to `failed`
carrying the error text. -/
def failPhase (s : PipelineState) (phase error : String) : PipelineState :=
  { s with
      phases := assocSet s.phases phase
        { name := phase, status := DeliverableStatus.failed,
          summary := some error } }

/-- Modelled from the spec: `ProgressTracker.add_cost` (module absent
from the source tree; its caller in `main.py` passes the synthesis cost
and a category).  The cumulative cost counters of the ledger grow by the
given amount. -/
def addCost (s : PipelineState) (amount : Rat) (category : String) :
    PipelineState :=
  if category == "research" then
    { s with totalResearchCost := s.totalResearchCost + amount,
             totalCost := s.totalCost + amount }
  else
    { s with totalSynthesisCost := s.totalSynthesisCost + amount,
             totalCost := s.totalCost + amount }

/-- The mutating calls of the Progress Tracker contract (spec 4.2),
quantified over in the atomic-ledger-write claim. -/
inductive Mutator where
  | startPhaseM (phase : String)
  | completePhaseM (phase summary : String)
  | failPhaseM (phase error : String)
  | completeDeliverableM (id path : String)
  | addCostM (amount : Rat) (category : String)
  deriving Repr, DecidableEq

/-- Applying one mutating call to the in-memory ledger. -/
def applyMutator (s : PipelineState) : Mutator → PipelineState
  | .startPhaseM phase => startPhase s phase
  | .completePhaseM phase summary => completePhase s phase summary
  | .failPhaseM phase error => failPhase s phase error
  | .completeDeliverableM id path => completeDeliverable s id path
  | .addCostM amount category => addCost s amount category

/-- A serialized rendering of a `DeliverableStatus`. -/
def statusString : DeliverableStatus → String
  | .pending => "pending"
  | .inProgress => "in_progress"
  | .completed => "completed"
  | .failed => "failed"
  | .skipped => "skipped"

/-- Modelled from the spec: the chunked serialization of the ledger as it
is streamed to the temporary file (spec 3: the ledger document holds
company identity, phase and deliverable statuses, costs and errors). -/
def serializeLedger (s : PipelineState) : List String :=
  [s.companyName, s.companySlug, s.currentPhase]
    ++ s.phases.map (fun p => p.1 ++ ":" ++ statusString p.2.status)
    ++ s.deliverables.map (fun p => p.1 ++ ":" ++ statusString p.2.status)
    ++ [toString s.totalCost.num ++ "/" ++ toString s.totalCost.den]
    ++ s.errors.map (fun e => e.deliverableId ++ ":" ++ e.error)

/-- The on-disk picture of the ledger: the main `state.json` file and the
temporary file of an in-flight atomic save.  A file is a list of written
chunks; `none` means the file is absent. -/
structure LedgerDisk where
  main : Option (List String)
  temp : Option (List String)
  deriving Repr, DecidableEq

/-- Modelled from the spec: the successive on-disk states while the
temporary file of an atomic save is being written chunk by chunk (spec 3:
write-temp-then-rename; the main file is untouched until the rename). -/
def tempWriteStates (d : LedgerDisk) (chunks : List String) :
    List LedgerDisk :=
  (List.range (chunks.length + 1)).map
    (fun i => { main := d.main, temp := some (chunks.take i) })

/-- Modelled from the spec: every on-disk state reachable during one
atomic save, in order: the partial writes of the temporary file, then the
state after the atomic rename has replaced the main file. -/
def atomicSaveStates (d : LedgerDisk) (chunks : List String) :
    List LedgerDisk :=
  tempWriteStates d chunks ++ [{ main := some chunks, temp := none }]

/-- Modelled from the spec: every on-disk state reachable when a mutating
Progress Tracker call runs on ledger `s` with disk `d`: the pre-call disk
itself, then every state of the atomic save of the mutated ledger (spec
4.2: every mutating call triggers an immediate durable save before
returning). -/
def mutatorCrashStates (s : PipelineState) (d : LedgerDisk) (m : Mutator) :
    List LedgerDisk :=
  d :: atomicSaveStates d (serializeLedger (applyMutator s m))

/-- The generated-document store: file path to file content. -/
abbrev FileStore : Type := List (String × String)

/-- The markdown output path used by
`SynthesisOrchestrator.save_deliverables`:
`output_dir / company_slug / "markdown" / (id ++ ".md")`. -/
def markdownPath (companySlug id : String) : String :=
  "output/" ++ companySlug ++ "/markdown/" ++ id ++ ".md"

/-- `SynthesisOrchestrator.save_deliverables` (lines 267-299): every
generated deliverable with non-empty content is written to its markdown
path (overwriting any previous file) and collected into the id-to-path
map returned to the caller. -/
def saveDeliverables (companySlug : String) (s : SynthState)
    (fs : FileStore) : FileStore × List (String × String) :=
  s.generated.foldl
    (fun acc p =>
      if p.2.content.isEmpty then acc
      else
        let path := markdownPath companySlug p.1
        (assocSet acc.1 path p.2.content, acc.2 ++ [(p.1, path)]))
    (fs, [])

/-- Result of the synthesis stage of the `resume` command: the updated
ledger, the updated document store, the ids for which a
synthesis-provider call was issued, and whether the synthesis phase ran
at all. -/
structure ResumeSynthesisResult where
  tracker : PipelineState
  files : FileStore
  calls : List String
  ranSynthesis : Bool
  deriving Repr, DecidableEq

/-- The synthesis stage of `StrategyFactoryCLI.cmd_resume` (lines
337-354) together with `_run_synthesis` (lines 552-573): when any
markdown deliverable of the static table is not recorded completed, the
entire synthesis phase is re-run via `synthesize` with no target filter
(a fresh orchestrator, `deliverables=None`), its output saved, and
`complete_deliverable` invoked for every saved file; when all markdown
deliverables are completed the phase is skipped.  Phase bookkeeping
(`start_phase` and `complete_phase`) does not touch deliverable records
and is elided. -/
def cmdResumeSynthesisStage (getPromptF : String → String)
    (provider : String → SynthesisResult) (t : PipelineState)
    (fs : FileStore) : ResumeSynthesisResult :=
  let completed := getCompletedDeliverables t
  let markdownDeliverables := markdownIds DELIVERABLES
  let allMarkdownDone := markdownDeliverables.all
    (fun d => completed.contains d)
  if allMarkdownDone then
    { tracker := t, files := fs, calls := [], ranSynthesis := false }
  else
    let s := synthesizeRun DELIVERABLES GENERATION_ORDER getPromptF
      provider none
    let saved := saveDeliverables t.companySlug s fs
    let t1 := saved.2.foldl
      (fun acc p => completeDeliverable acc p.1 p.2) t
    { tracker := t1, files := saved.1, calls := s.calls,
      ranSynthesis := true }

/-- `StrategyFactoryCLI._check_api_keys` (lines 654-671): collect the
missing credential names in source order (`os.getenv` yields a falsy
value for an unset or empty variable). -/
def checkApiKeysMissing (perplexityKey geminiKey : Option String) :
    List String :=
  (if pyTruthy perplexityKey then [] else ["PERPLEXITY_API_KEY"])
    ++ (if pyTruthy geminiKey then [] else ["GEMINI_API_KEY"])

/-- The externally visible actions of one CLI command used by the
credential-gating claim: console output, creation of the progress
tracker (the first pipeline-state mutation of `cmd_run`), and an
external-provider call. -/
inductive CliAction where
  | consoleOutput
  | createTracker
  | providerCall
  deriving Repr, DecidableEq

/-- The gating prefix of `StrategyFactoryCLI.cmd_run` (lines 213-247):
after the banner prints, `--dry-run` branches into `_dry_run`, which only
prints and returns 0, before the credential check; otherwise missing
credentials print the report and return 1 before the `ProgressTracker` is
constructed; only past the gate does the pipeline itself (whose actions
and exit code are the `pipeline` arguments) run. -/
def cmdRunGate (dryRun : Bool) (perplexityKey geminiKey : Option String)
    (pipelineActions : List CliAction) (pipelineExit : Nat) :
    Nat × List CliAction :=
  if dryRun then (0, [CliAction.consoleOutput])
  else
    let missing := checkApiKeysMissing perplexityKey geminiKey
    if missing.isEmpty then
      (pipelineExit, CliAction.consoleOutput ::
        CliAction.createTracker :: pipelineActions)
    else (1, [CliAction.consoleOutput])

/-- The scheduler state reached after processing the first `k` dependency
levels of `GENERATION_ORDER` (the outer loop of `synthesize` stopped
after `k` iterations); at `k = GENERATION_ORDER.length` this is the full
`synthesize` run. -/
def levelPrefixRun (getPromptF : String → String)
    (provider : String → SynthesisResult) (targets : List String)
    (k : Nat) : SynthState :=
  (GENERATION_ORDER.take k).foldl
    (runLevel DELIVERABLES getPromptF provider targets) initialSynthState

/-- The ids of the first `k` levels that are among the targets, in
processing order. -/
def levelPrefixIds (targets : List String) (k : Nat) : List String :=
  ((GENERATION_ORDER.take k).map
    (fun lvl => lvl.filter (fun d => targets.contains d))).flatten

/-- A concrete cached query result used by the C9 witness. -/
def c9CachedResult : QueryResult :=
  { query := "Acme Corp company overview", modelUsed := "sonar",
    results := [], resultCount := 0, timestamp := 0, costEstimate := 1 / 500 }

/-- A concrete one-hour-old cache entry with a 24-hour TTL used by the
C9 witness. -/
def c9Entry : CacheEntry :=
  { queryHash := "k1", query := "Acme Corp company overview",
    result := c9CachedResult, timestamp := 0, ttlHours := 24 }

/-- A concrete client state holding `c9Entry` used by the C9 witness. -/
def c9State : PerplexityClientState :=
  { enableCache := true, cache := [("k1", c9Entry)], totalCost := 7 / 2,
    queryCount := 2 }

/-- The two-deliverable configuration of the C3 scenario: `A` has no
prerequisites, `B` depends on `A`, both markdown. -/
def c3Table : List (String × DeliverableConfig) := [
  ("A", { name := "Deliverable A", format := "markdown", dependencies := [],
          tldrGuides := [] }),
  ("B", { name := "Deliverable B", format := "markdown",
          dependencies := ["A"], tldrGuides := [] })]

/-- The dependency levels of the C3 scenario. -/
def c3Order : List (List String) := [["A"], ["B"]]

/-- A prompt-template function under which every deliverable id has a
non-empty template. -/
def allPrompts : String → String := fun _ => "PROMPT_TEMPLATE"

/-- A synthesis provider whose every call fails after its internal
retries are exhausted. -/
def failingProvider : String → SynthesisResult := fun _ =>
  { content := "", modelUsed := "gemini-2.5-flash", timestamp := 0,
    promptTokens := 0, completionTokens := 0, costEstimate := 0,
    error := some "Gemini API error" }

/-- A concrete pre-call ledger used by the C2 witness. -/
def c2State : PipelineState :=
  { companyName := "Acme Corp", companySlug := "acme-corp" }

/-- The pre-call disk holding the serialized `c2State` used by the C2
witness. -/
def c2Disk : LedgerDisk :=
  { main := some (serializeLedger c2State), temp := none }

/-- The mutating call exercised by the C2 witness. -/
def c2Mutator : Mutator :=
  Mutator.completeDeliverableM "01_tech_inventory"
    "output/acme-corp/markdown/01_tech_inventory.md"

/-- A synthesis provider whose every call succeeds with content derived
from the deliverable id, used by the C1 counterexample. -/
def c1Provider : String → SynthesisResult := fun id =>
  { content := "generated " ++ id, modelUsed := "gemini-2.5-flash",
    timestamp := 1, promptTokens := 100, completionTokens := 200,
    costEstimate := 0, error := none }

/-- The recorded file path of the completed deliverable in the C1
counterexample. -/
def c1Path : String := markdownPath "acme-corp" "01_tech_inventory"

/-- A persisted pipeline state in which `01_tech_inventory` is recorded
completed and every other markdown deliverable is still pending. -/
def c1Tracker : PipelineState :=
  { companyName := "Acme Corp", companySlug := "acme-corp",
    deliverables := [("01_tech_inventory",
      { status := DeliverableStatus.completed, filePath := some c1Path })] }

/-- The on-disk documents of the C1 counterexample: the completed
deliverable with its previously recorded content. -/
def c1Files : FileStore := [(c1Path, "OLD CONTENT")]

/-! Helper lemmas shared by the claim theorems. -/

/-- The Gemini per-call cost estimate is non-negative. -/
theorem estimateCost_nonneg (i o : Nat) : 0 ≤ estimateCost i o := by
  unfold estimateCost COST_PER_1M_INPUT COST_PER_1M_OUTPUT
  positivity

/-- The Perplexity per-call cost estimate is non-negative for every model
string (all table entries and the fallback are non-negative). -/
theorem perplexityEstimateCost_nonneg (model : String) (i o : Nat) :
    0 ≤ perplexityEstimateCost model i o := by
  unfold perplexityEstimateCost
  rcases h : PERPLEXITY_COSTS.find? (fun p => p.1 == model) with _ | p
  · rw [h]; simp; positivity
  · have hmem := List.mem_of_find?_eq_some h
    rw [h]
    simp only [PERPLEXITY_COSTS, List.mem_cons, List.not_mem_nil,
      or_false] at hmem
    rcases hmem with h1 | h1 | h1 | h1 | h1 <;> subst h1 <;> simp <;>
      positivity

/-- Every `GeminiClient.generate` call adds a non-negative amount to the
cost accumulator. -/
theorem generateGo_costAdded_nonneg (oracle : Nat → AttemptOutcome)
    (mn p : String) (si : Option String) :
    ∀ (remaining attempt delay : Nat) (le : Option String),
      0 ≤ (generateGo oracle mn p si remaining attempt delay le).costAdded := by
  intro remaining
  induction remaining with
  | zero => intro attempt delay le; simp [generateGo]
  | succ n ih =>
    intro attempt delay le
    rcases h : oracle attempt with c | m
    · simp only [generateGo, h]
      unfold generateSuccessResult estimateCost COST_PER_1M_INPUT
        COST_PER_1M_OUTPUT
      positivity
    · by_cases hn : n > 0 <;> simp [generateGo, h, hn, ih]

/-- Every `PerplexityClient._execute_with_retry` call adds a non-negative
amount to the cost accumulator. -/
theorem executeWithRetryGo_costAdded_nonneg (oracle : Nat → SearchAttempt)
    (q m : String) (now : Rat) :
    ∀ (remaining attempt : Nat) (le : Option String),
      0 ≤ (executeWithRetryGo oracle q m now remaining attempt le).costAdded := by
  intro remaining
  induction remaining with
  | zero => intro attempt le; simp [executeWithRetryGo]
  | succ n ih =>
    intro attempt le
    rcases h : oracle attempt with c | msg
    · simp only [executeWithRetryGo, h]
      exact perplexityEstimateCost_nonneg m 500 1000
    · simp only [executeWithRetryGo, h]
      exact ih (attempt + 1) (some msg)

/-- With at least one loop iteration left, `_execute_with_retry` issues at
least one provider attempt. -/
theorem executeWithRetryGo_attempts_pos (oracle : Nat → SearchAttempt)
    (q m : String) (now : Rat) :
    ∀ (n attempt : Nat) (le : Option String),
      attempt + 1 ≤ (executeWithRetryGo oracle q m now (n + 1) attempt le).attemptsMade := by
  intro n
  induction n with
  | zero =>
    intro attempt le
    rcases h : oracle attempt with c | msg <;>
      simp [executeWithRetryGo, h]
  | succ k ih =>
    intro attempt le
    rcases h : oracle attempt with c | msg
    · simp [executeWithRetryGo, h]
    · simp only [executeWithRetryGo, h]
      exact le_trans (Nat.le_succ _) (ih (attempt + 1) (some msg))

/-! Claim theorems. -/

/-- Claim C5: for every prompt, `GeminiClient.generate` makes at most
`max_retries = 3` attempts, sleeping between failed attempts with a delay
starting at 5 seconds, doubling each time and capped at 60 seconds (with
three attempts the observed sleeps form the prefix of `[5, 10]` of length
`attempts - 1`); when every attempt fails it returns a `SynthesisResult`
whose error field holds the last error, with zero cost added, instead of
raising. -/
theorem c5_bounded_retry_yields_unit_failure
    (oracle : Nat → AttemptOutcome) (modelName prompt : String)
    (sysInstr : Option String) :
    ((generate oracle modelName prompt sysInstr).attemptsMade ≤ 3 ∧
      (generate oracle modelName prompt sysInstr).sleeps =
        List.take
          ((generate oracle modelName prompt sysInstr).attemptsMade - 1)
          [5, 10]) ∧
    (∀ m0 m1 m2 : String,
      oracle 0 = AttemptOutcome.err m0 → oracle 1 = AttemptOutcome.err m1 →
      oracle 2 = AttemptOutcome.err m2 →
      (generate oracle modelName prompt sysInstr).result.error = some m2 ∧
      (generate oracle modelName prompt sysInstr).result.content = "" ∧
      (generate oracle modelName prompt sysInstr).attemptsMade = 3 ∧
      (generate oracle modelName prompt sysInstr).sleeps = [5, 10] ∧
      (generate oracle modelName prompt sysInstr).costAdded = 0) := by
  constructor
  · rcases h0 : oracle 0 with c0 | m0 <;>
      rcases h1 : oracle 1 with c1 | m1 <;>
        rcases h2 : oracle 2 with c2 | m2 <;>
          simp [generate, generateGo, RETRY_CONFIG, h0, h1, h2]
  · intro m0 m1 m2 h0 h1 h2
    simp [generate, generateGo, RETRY_CONFIG, h0, h1, h2,
      generateFailureResult]

/-- Witness for C5 at a provider that fails every attempt. -/
theorem c5_witness :
    (generate (fun _ => AttemptOutcome.err "rate limited") "gemini-2.5-flash"
      "p" none).result.error = some "rate limited" ∧
    (generate (fun _ => AttemptOutcome.err "rate limited") "gemini-2.5-flash"
      "p" none).attemptsMade = 3 ∧
    (generate (fun _ => AttemptOutcome.err "rate limited") "gemini-2.5-flash"
      "p" none).sleeps = [5, 10] := by
  have h := (c5_bounded_retry_yields_unit_failure
    (fun _ => AttemptOutcome.err "rate limited") "gemini-2.5-flash" "p"
    none).2 "rate limited" "rate limited" "rate limited" rfl rfl rfl
  exact ⟨h.1, h.2.2.1, h.2.2.2.1⟩

/-- Claim C6: both cumulative cost accumulators (`GeminiClient.total_cost`
and `PerplexityClient.total_cost`) are non-decreasing across any sequence
of provider calls, including calls that end in failure, since every
update adds a non-negative per-call cost estimate. -/
theorem c6_cost_monotonicity :
    (∀ (modelName : String) (history : List GenCall) (next : GenCall),
      geminiTotalCost modelName history ≤
        geminiTotalCost modelName (history ++ [next])) ∧
    (∀ (history : List PCall) (next : PCall),
      perplexityTotalCost history ≤
        perplexityTotalCost (history ++ [next])) := by
  constructor
  · intro modelName history next
    unfold geminiTotalCost
    rw [List.foldl_append]
    simp only [List.foldl_cons, List.foldl_nil]
    exact le_add_of_nonneg_right
      (generateGo_costAdded_nonneg next.oracle modelName next.prompt
        next.systemInstruction _ _ _ _)
  · intro history next
    unfold perplexityTotalCost
    rw [List.foldl_append]
    simp only [List.foldl_cons, List.foldl_nil]
    exact le_add_of_nonneg_right
      (executeWithRetryGo_costAdded_nonneg next.oracle next.query next.model
        next.now _ _ _)

/-- Claim C9: a cache entry found under the derived key whose age is
strictly below its per-entry TTL makes `PerplexityClient.search` return
the cached `QueryResult` with no provider attempt and an unchanged client
state (in particular `total_cost` and `query_count` are untouched); an
entry at or past its TTL is not returned and the query is re-issued
against the provider. -/
theorem c9_cache_hit_suppresses_provider_call
    (st : PerplexityClientState) (now : Rat) (cacheKey queryStr model : String)
    (ttl : Rat) (oracle : Nat → SearchAttempt) (entry : CacheEntry)
    (henable : st.enableCache = true)
    (hfind : assocFind st.cache cacheKey = some entry) :
    ((now - entry.timestamp) / 3600 < entry.ttlHours →
      search st now cacheKey queryStr model ttl oracle =
        { result := entry.result, state := st, providerAttempts := 0 }) ∧
    (entry.ttlHours ≤ (now - entry.timestamp) / 3600 →
      1 ≤ (search st now cacheKey queryStr model ttl oracle).providerAttempts) := by
  constructor
  · intro hlt
    have hvalid : isCacheValid now entry = true := by
      unfold isCacheValid; exact decide_eq_true hlt
    simp [search, henable, hfind, hvalid]
  · intro hge
    have hvalid : isCacheValid now entry = false := by
      unfold isCacheValid
      exact decide_eq_false (not_lt.mpr hge)
    have hmax : RETRY_CONFIG.maxRetries = 2 + 1 := rfl
    simp only [search, henable, if_true, hfind, hvalid, Bool.false_eq_true,
      if_false, searchExecute, executeWithRetry, hmax]
    exact executeWithRetryGo_attempts_pos oracle queryStr model now 2 0 none



/-- Witness for C9: a one-hour-old entry with a 24-hour TTL is served
from the cache with no provider attempt, and the same entry at exactly
its TTL is re-issued. -/
theorem c9_witness :
    search c9State 3600 "k1" "Acme Corp company overview" "sonar" 24
        (fun _ => SearchAttempt.ok []) =
      { result := c9CachedResult, state := c9State, providerAttempts := 0 } ∧
    1 ≤ (search c9State (24 * 3600) "k1" "Acme Corp company overview"
        "sonar" 24 (fun _ => SearchAttempt.ok [])).providerAttempts := by
  constructor
  · exact (c9_cache_hit_suppresses_provider_call c9State 3600 "k1"
      "Acme Corp company overview" "sonar" 24 (fun _ => SearchAttempt.ok [])
      c9Entry rfl rfl).1 (by norm_num [c9Entry])
  · exact (c9_cache_hit_suppresses_provider_call c9State (24 * 3600) "k1"
      "Acme Corp company overview" "sonar" 24 (fun _ => SearchAttempt.ok [])
      c9Entry rfl rfl).2 (by norm_num [c9Entry])

/-- Claim C8: with either provider credential absent (unset or empty),
`run` reports exactly the missing key names and exits 1 before the
progress tracker is created or any provider is called, for every
downstream pipeline; `run --dry-run` exits 0 without requiring either
credential, performing console output only (no tracker creation, no
provider call). -/
theorem c8_credential_gating
    (perplexityKey geminiKey : Option String)
    (pipelineActions : List CliAction) (pipelineExit : Nat) :
    (cmdRunGate true perplexityKey geminiKey pipelineActions pipelineExit =
      (0, [CliAction.consoleOutput])) ∧
    (¬pyTruthy perplexityKey = true ∨ ¬pyTruthy geminiKey = true →
      cmdRunGate false perplexityKey geminiKey pipelineActions pipelineExit =
        (1, [CliAction.consoleOutput])) ∧
    ("PERPLEXITY_API_KEY" ∈ checkApiKeysMissing perplexityKey geminiKey ↔
      ¬pyTruthy perplexityKey = true) ∧
    ("GEMINI_API_KEY" ∈ checkApiKeysMissing perplexityKey geminiKey ↔
      ¬pyTruthy geminiKey = true) := by
  refine ⟨rfl, ?_, ?_, ?_⟩
  · intro h
    rcases hp : pyTruthy perplexityKey <;> rcases hg : pyTruthy geminiKey
    · simp [cmdRunGate, checkApiKeysMissing, hp, hg]
    · simp [cmdRunGate, checkApiKeysMissing, hp, hg]
    · simp [cmdRunGate, checkApiKeysMissing, hp, hg]
    · simp [hp, hg] at h
  · rcases hp : pyTruthy perplexityKey <;> rcases hg : pyTruthy geminiKey <;>
      simp [checkApiKeysMissing, hp, hg]
  · rcases hp : pyTruthy perplexityKey <;> rcases hg : pyTruthy geminiKey <;>
      simp [checkApiKeysMissing, hp, hg]

/-- Witness for C8: with no Perplexity key and an empty Gemini key, `run`
exits 1 reporting both keys, while `run --dry-run` exits 0; the reported
actions contain no tracker creation and no provider call. -/
theorem c8_witness :
    cmdRunGate false none (some "") [CliAction.providerCall] 0 =
      (1, [CliAction.consoleOutput]) ∧
    cmdRunGate true none (some "") [CliAction.providerCall] 0 =
      (0, [CliAction.consoleOutput]) ∧
    "PERPLEXITY_API_KEY" ∈ checkApiKeysMissing none (some "") ∧
    "GEMINI_API_KEY" ∈ checkApiKeysMissing none (some "") := by
  have h := c8_credential_gating none (some "") [CliAction.providerCall] 0
  refine ⟨h.2.1 ?_, h.1, h.2.2.1.mpr ?_, h.2.2.2.mpr ?_⟩ <;>
    simp [pyTruthy, String.isEmpty]

/-- The dependency-check loop succeeds exactly when every non-sentinel
dependency is registered as generated; the `ALL_MARKDOWN` sentinel is
skipped unconditionally. -/
theorem checkDepsLoop_iff : ∀ (gen : List String) (deps : List String),
    checkDepsLoop gen deps = true ↔
      ∀ dep ∈ deps, dep ≠ "ALL_MARKDOWN" → dep ∈ gen := by
  intro gen deps
  induction deps with
  | nil => simp [checkDepsLoop]
  | cons d rest ih =>
    by_cases hd : d = "ALL_MARKDOWN"
    · subst hd
      simp [checkDepsLoop, ih]
    · have hdb : (d == "ALL_MARKDOWN") = false := beq_eq_false_iff_ne.mpr hd
      by_cases hmem : d ∈ gen
      · simp [checkDepsLoop, hdb, hmem, ih, List.forall_mem_cons, hd]
      · simp [checkDepsLoop, hdb, hmem, List.forall_mem_cons, hd]

/-- Claim C7, counterexample: in the scheduler's pre-generation check the
sentinel is already treated as satisfied in the fresh state, where the
requested markdown deliverable `01_tech_inventory` (a default target) has
neither completed nor failed — not "exactly once all markdown-format
deliverables requested so far have either completed or failed". -/
theorem c7_counterexample :
    checkDependencies DELIVERABLES [] "executive_summary_deck" = true ∧
    dependenciesOf DELIVERABLES "executive_summary_deck" = ["ALL_MARKDOWN"] ∧
    "01_tech_inventory" ∈ markdownIds DELIVERABLES ∧
    ¬ resolvedIn initialSynthState "01_tech_inventory" := by
  refine ⟨rfl, rfl, ?_, ?_⟩
  · decide
  · simp [resolvedIn, initialSynthState, generatedIds, errorIds]

/-- Claim C7 as amended: `_check_dependencies` treats the `ALL_MARKDOWN`
sentinel as unconditionally satisfied — the check passes exactly when
every non-sentinel prerequisite is in the completed set, ignoring the
sentinel entirely; consequently it never blocks on markdown deliverables
(requested or not), and in particular a deliverable whose only
prerequisite is the sentinel always passes the check. -/
theorem c7_sentinel_unconditionally_satisfied :
    (∀ (table : List (String × DeliverableConfig)) (gen : List String)
      (id : String),
      checkDependencies table gen id = true ↔
        ∀ dep ∈ dependenciesOf table id, dep ≠ "ALL_MARKDOWN" → dep ∈ gen) ∧
    (∀ gen : List String,
      checkDependencies DELIVERABLES gen "executive_summary_deck" = true) := by
  constructor
  · intro table gen id
    exact checkDepsLoop_iff gen (dependenciesOf table id)
  · intro gen
    refine (checkDepsLoop_iff gen
      (dependenciesOf DELIVERABLES "executive_summary_deck")).mpr ?_
    intro dep hmem hne
    have hdeps : dependenciesOf DELIVERABLES "executive_summary_deck" =
      ["ALL_MARKDOWN"] := rfl
    rw [hdeps] at hmem
    exact absurd (List.mem_singleton.mp hmem) hne

/-- Witness for the amended C7 at the empty completed set. -/
theorem c7_witness :
    checkDependencies DELIVERABLES [] "executive_summary_deck" = true :=
  c7_sentinel_unconditionally_satisfied.2 []



/-- Claim C3, counterexample: in the stated scenario the batch ends with
0 completions and exactly 2 failures — `A` with the provider error and
`B` failed for its unmet dependency — but the recorded reason string is
"Dependencies not met", and no error record carries the reason
"dependency not met" stated by the claim. -/
theorem c3_counterexample :
    (synthesizeRun c3Table c3Order allPrompts failingProvider none).generated
      = [] ∧
    (synthesizeRun c3Table c3Order allPrompts failingProvider none).errors =
      [{ deliverableId := "A", error := "Gemini API error" },
       { deliverableId := "B", error := "Dependencies not met" }] ∧
    ∀ e ∈ (synthesizeRun c3Table c3Order allPrompts failingProvider
      none).errors, e.error ≠ "dependency not met" := by
  refine ⟨rfl, rfl, ?_⟩
  decide

/-- Claim C3 as amended: when any non-sentinel prerequisite of a
deliverable is absent from the completed set as it is reached, the
deliverable is marked failed with reason "Dependencies not met" (not
"dependency not met") and generation is skipped — the state is only
extended with the error record, no provider call is issued and no
exception can abort the batch; in the scenario where `A` has no
prerequisites, `B` depends on `A` and every provider call for `A` fails,
the batch result holds 0 completions and exactly the 2 failures `A`
(provider error) and `B` ("Dependencies not met"). -/
theorem c3_dependency_unmet_isolation :
    (∀ (table : List (String × DeliverableConfig))
      (getPromptF : String → String) (provider : String → SynthesisResult)
      (s : SynthState) (id : String),
      checkDependencies table (s.generated.map Prod.fst) id = false →
      processDeliverable table getPromptF provider s id =
        { s with
            processed := s.processed ++ [id],
            errors := s.errors ++
              [{ deliverableId := id, error := "Dependencies not met" }] }) ∧
    (synthesizeRun c3Table c3Order allPrompts failingProvider none).generated
      = [] ∧
    (synthesizeRun c3Table c3Order allPrompts failingProvider none).errors =
      [{ deliverableId := "A", error := "Gemini API error" },
       { deliverableId := "B", error := "Dependencies not met" }] ∧
    (synthesizeRun c3Table c3Order allPrompts failingProvider none).calls =
      ["A"] := by
  refine ⟨?_, rfl, rfl, rfl⟩
  intro table getPromptF provider s id h
  simp [processDeliverable, h]

/-- Witness for the amended C3: processing `B` from the fresh state (its
prerequisite `A` not generated) records exactly the
"Dependencies not met" failure. -/
theorem c3_witness :
    processDeliverable c3Table allPrompts failingProvider initialSynthState
      "B" =
      { initialSynthState with
          processed := initialSynthState.processed ++ ["B"],
          errors := initialSynthState.errors ++
            [{ deliverableId := "B", error := "Dependencies not met" }] } :=
  c3_dependency_unmet_isolation.1 c3Table allPrompts failingProvider
    initialSynthState "B" rfl

/-- Keys of a dict after an overwrite-or-append update: any key of the
result is an old key or the updated key. -/
theorem mem_fst_assocSet {α : Type} (l : List (String × α)) (k x : String)
    (v : α) (h : x ∈ (assocSet l k v).map Prod.fst) :
    x ∈ l.map Prod.fst ∨ x = k := by
  unfold assocSet at h
  by_cases hany : l.any (fun p => p.1 == k)
  · rw [if_pos hany] at h
    rcases List.mem_map.mp h with ⟨p, hp, hfx⟩
    rcases List.mem_map.mp hp with ⟨q, hq, hfq⟩
    by_cases hqk : q.1 == k
    · right
      rw [← hfx, ← hfq]
      simp [hqk]
    · left
      rw [← hfx, ← hfq]
      simp only [hqk, if_false, Bool.false_eq_true]
      exact List.mem_map.mpr ⟨q, hq, rfl⟩
  · rw [if_neg hany] at h
    rw [List.map_append] at h
    rcases List.mem_append.mp h with h1 | h1
    · exact Or.inl h1
    · right
      simpa using h1

/-- One scheduler iteration can resolve no deliverable other than the one
it processes. -/
theorem resolved_processDeliverable
    (table : List (String × DeliverableConfig))
    (getPromptF : String → String) (provider : String → SynthesisResult)
    (s : SynthState) (id x : String)
    (h : resolvedIn (processDeliverable table getPromptF provider s id) x) :
    resolvedIn s x ∨ x = id := by
  unfold processDeliverable at h
  by_cases hchk : checkDependencies table (s.generated.map Prod.fst) id
  · rw [if_pos hchk] at h
    by_cases herr :
        pyTruthy (generateDeliverable table getPromptF provider id).1.error
    · rw [if_pos herr] at h
      rcases h with h1 | h1
      · exact Or.inl (Or.inl h1)
      · unfold errorIds at h1
        rw [List.map_append] at h1
        rcases List.mem_append.mp h1 with h2 | h2
        · exact Or.inl (Or.inr h2)
        · right; simpa using h2
    · rw [if_neg herr] at h
      rcases h with h1 | h1
      · rcases mem_fst_assocSet _ _ _ _ h1 with h2 | h2
        · exact Or.inl (Or.inl h2)
        · exact Or.inr h2
      · exact Or.inl (Or.inr h1)
  · rw [if_neg hchk] at h
    rcases h with h1 | h1
    · exact Or.inl (Or.inl h1)
    · unfold errorIds at h1
      rw [List.map_append] at h1
      rcases List.mem_append.mp h1 with h2 | h2
      · exact Or.inl (Or.inr h2)
      · right; simpa using h2

/-- A run over a list of deliverables resolves only members of that
list. -/
theorem resolved_foldl (table : List (String × DeliverableConfig))
    (getPromptF : String → String) (provider : String → SynthesisResult) :
    ∀ (l : List String) (s : SynthState) (x : String),
      resolvedIn (l.foldl (processDeliverable table getPromptF provider) s) x →
      resolvedIn s x ∨ x ∈ l := by
  intro l
  induction l with
  | nil => intro s x h; exact Or.inl h
  | cons a rest ih =>
    intro s x h
    rw [List.foldl_cons] at h
    rcases ih _ x h with h1 | h1
    · rcases resolved_processDeliverable table getPromptF provider s a x h1
        with h2 | h2
      · exact Or.inl h2
      · exact Or.inr (h2 ▸ List.mem_cons_self a rest)
    · exact Or.inr (List.mem_cons_of_mem a h1)

/-- A level run resolves only members of that level. -/
theorem resolved_runLevel (table : List (String × DeliverableConfig))
    (getPromptF : String → String) (provider : String → SynthesisResult)
    (targets : List String) (s : SynthState) (level : List String)
    (x : String)
    (h : resolvedIn (runLevel table getPromptF provider targets s level) x) :
    resolvedIn s x ∨ x ∈ level := by
  rcases resolved_foldl table getPromptF provider _ s x h with h1 | h1
  · exact Or.inl h1
  · exact Or.inr (List.mem_of_mem_filter h1)

/-- A whole scheduler run resolves only members of some generation
level. -/
theorem resolved_levels_foldl (table : List (String × DeliverableConfig))
    (getPromptF : String → String) (provider : String → SynthesisResult)
    (targets : List String) :
    ∀ (order : List (List String)) (s : SynthState) (x : String),
      resolvedIn
        (order.foldl (runLevel table getPromptF provider targets) s) x →
      resolvedIn s x ∨ ∃ level ∈ order, x ∈ level := by
  intro order
  induction order with
  | nil => intro s x h; exact Or.inl h
  | cons lvl rest ih =>
    intro s x h
    rw [List.foldl_cons] at h
    rcases ih _ x h with h1 | h1
    · rcases resolved_runLevel table getPromptF provider targets s lvl x h1
        with h2 | h2
      · exact Or.inl h2
      · exact Or.inr ⟨lvl, List.mem_cons_self lvl rest, h2⟩
    · rcases h1 with ⟨lv, hlv, hx⟩
      exact Or.inr ⟨lv, List.mem_cons_of_mem lvl hlv, hx⟩

/-- Claim C10: every requested target that occurs in no level of
`GENERATION_ORDER` is silently dropped by `synthesize`: it ends the run
neither in the output deliverables map nor among the recorded errors —
and every pptx/docx deliverable, such as `executive_summary_deck` and
`final_strategy_report`, occurs in no level. -/
theorem c10_off_order_targets_silently_dropped
    (getPromptF : String → String) (provider : String → SynthesisResult)
    (ds : List String) (id : String) (_hreq : id ∈ ds)
    (hoff : ∀ level ∈ GENERATION_ORDER, id ∉ level) :
    ¬ resolvedIn (synthesizeRun DELIVERABLES GENERATION_ORDER getPromptF
        provider (some ds)) id ∧
    (∀ level ∈ GENERATION_ORDER, "executive_summary_deck" ∉ level) ∧
    (∀ level ∈ GENERATION_ORDER, "final_strategy_report" ∉ level) := by
  refine ⟨?_, by decide, by decide⟩
  intro hres
  unfold synthesizeRun at hres
  rcases resolved_levels_foldl DELIVERABLES getPromptF provider _
    GENERATION_ORDER initialSynthState id hres with h1 | h1
  · simp [resolvedIn, initialSynthState, generatedIds, errorIds] at h1
  · rcases h1 with ⟨lv, hlv, hx⟩
    exact hoff lv hlv hx

/-- Witness for C10: requesting `executive_summary_deck` together with a
markdown deliverable leaves it unresolved. -/
theorem c10_witness :
    ¬ resolvedIn
      (synthesizeRun DELIVERABLES GENERATION_ORDER allPrompts
        failingProvider
        (some ["01_tech_inventory", "executive_summary_deck"]))
      "executive_summary_deck" :=
  (c10_off_order_targets_silently_dropped allPrompts failingProvider
    ["01_tech_inventory", "executive_summary_deck"]
    "executive_summary_deck" (by decide) (by decide)).1

/-- A key present in a dict stays present after an overwrite-or-append
update. -/
theorem mem_fst_assocSet_of_mem {α : Type} (l : List (String × α))
    (k x : String) (v : α) (h : x ∈ l.map Prod.fst) :
    x ∈ (assocSet l k v).map Prod.fst := by
  unfold assocSet
  by_cases hany : l.any (fun p => p.1 == k)
  · rw [if_pos hany]
    rcases List.mem_map.mp h with ⟨q, hq, hfq⟩
    by_cases hqk : q.1 == k
    · refine List.mem_map.mpr
        ⟨(k, v), List.mem_map.mpr ⟨q, hq, by simp [hqk]⟩, ?_⟩
      rw [← hfq]
      exact (eq_of_beq hqk).symm
    · exact List.mem_map.mpr ⟨q, List.mem_map.mpr ⟨q, hq, by simp [hqk]⟩, hfq⟩
  · rw [if_neg hany, List.map_append]
    exact List.mem_append_left _ h

/-- The updated key is present after an overwrite-or-append update. -/
theorem mem_fst_assocSet_self {α : Type} (l : List (String × α))
    (k : String) (v : α) : k ∈ (assocSet l k v).map Prod.fst := by
  unfold assocSet
  by_cases hany : l.any (fun p => p.1 == k)
  · rw [if_pos hany]
    rcases List.any_eq_true.mp hany with ⟨q, hq, hqk⟩
    exact List.mem_map.mpr
      ⟨(k, v), List.mem_map.mpr ⟨q, hq, by simp [hqk]⟩, rfl⟩
  · rw [if_neg hany, List.map_append]
    exact List.mem_append_right _ (by simp)

/-- A deliverable once resolved stays resolved through any further
scheduler iteration. -/
theorem resolved_mono_processDeliverable
    (table : List (String × DeliverableConfig))
    (getPromptF : String → String) (provider : String → SynthesisResult)
    (s : SynthState) (id x : String) (h : resolvedIn s x) :
    resolvedIn (processDeliverable table getPromptF provider s id) x := by
  unfold processDeliverable
  by_cases hchk : checkDependencies table (s.generated.map Prod.fst) id
  · rw [if_pos hchk]
    by_cases herr :
        pyTruthy (generateDeliverable table getPromptF provider id).1.error
    · rw [if_pos herr]
      rcases h with h1 | h1
      · exact Or.inl h1
      · right
        unfold errorIds at h1 ⊢
        rw [List.map_append]
        exact List.mem_append_left _ h1
    · rw [if_neg herr]
      rcases h with h1 | h1
      · left
        unfold generatedIds at h1 ⊢
        exact mem_fst_assocSet_of_mem _ _ _ _ h1
      · exact Or.inr h1
  · rw [if_neg hchk]
    rcases h with h1 | h1
    · exact Or.inl h1
    · right
      unfold errorIds at h1 ⊢
      rw [List.map_append]
      exact List.mem_append_left _ h1

/-- Every scheduler iteration resolves the deliverable it processes:
it either registers content or records an error for it. -/
theorem resolved_self_processDeliverable
    (table : List (String × DeliverableConfig))
    (getPromptF : String → String) (provider : String → SynthesisResult)
    (s : SynthState) (id : String) :
    resolvedIn (processDeliverable table getPromptF provider s id) id := by
  unfold processDeliverable
  by_cases hchk : checkDependencies table (s.generated.map Prod.fst) id
  · rw [if_pos hchk]
    by_cases herr :
        pyTruthy (generateDeliverable table getPromptF provider id).1.error
    · rw [if_pos herr]
      right
      unfold errorIds
      rw [List.map_append]
      exact List.mem_append_right _ (by simp)
    · rw [if_neg herr]
      left
      unfold generatedIds
      exact mem_fst_assocSet_self _ _ _
  · rw [if_neg hchk]
    right
    unfold errorIds
    rw [List.map_append]
    exact List.mem_append_right _ (by simp)

/-- Every scheduler iteration appends exactly its deliverable to the
processing trace. -/
theorem processed_processDeliverable
    (table : List (String × DeliverableConfig))
    (getPromptF : String → String) (provider : String → SynthesisResult)
    (s : SynthState) (id : String) :
    (processDeliverable table getPromptF provider s id).processed =
      s.processed ++ [id] := by
  unfold processDeliverable
  by_cases hchk : checkDependencies table (s.generated.map Prod.fst) id
  · rw [if_pos hchk]
    by_cases herr :
        pyTruthy (generateDeliverable table getPromptF provider id).1.error
    · rw [if_pos herr]
    · rw [if_neg herr]
  · rw [if_neg hchk]

/-- The processing trace of a run over a list is that list, appended. -/
theorem processed_foldl (table : List (String × DeliverableConfig))
    (getPromptF : String → String) (provider : String → SynthesisResult) :
    ∀ (l : List String) (s : SynthState),
      (l.foldl (processDeliverable table getPromptF provider) s).processed =
        s.processed ++ l := by
  intro l
  induction l with
  | nil => intro s; simp
  | cons a rest ih =>
    intro s
    rw [List.foldl_cons, ih, processed_processDeliverable]
    simp

/-- The processing trace of the outer level loop is the concatenation of
the per-level target filters, in level order. -/
theorem processed_levels (table : List (String × DeliverableConfig))
    (getPromptF : String → String) (provider : String → SynthesisResult)
    (targets : List String) :
    ∀ (order : List (List String)) (s : SynthState),
      (order.foldl (runLevel table getPromptF provider targets) s).processed =
        s.processed ++
          (order.map
            (fun lvl => lvl.filter (fun d => targets.contains d))).flatten := by
  intro order
  induction order with
  | nil => intro s; simp
  | cons lvl rest ih =>
    intro s
    rw [List.foldl_cons, ih]
    unfold runLevel
    rw [processed_foldl]
    simp

/-- Resolution is preserved by a run over any list of deliverables. -/
theorem resolved_mono_foldl (table : List (String × DeliverableConfig))
    (getPromptF : String → String) (provider : String → SynthesisResult) :
    ∀ (l : List String) (s : SynthState) (x : String), resolvedIn s x →
      resolvedIn
        (l.foldl (processDeliverable table getPromptF provider) s) x := by
  intro l
  induction l with
  | nil => intro s x h; exact h
  | cons a rest ih =>
    intro s x h
    rw [List.foldl_cons]
    exact ih _ x (resolved_mono_processDeliverable table getPromptF provider
      s a x h)

/-- A run over a list of deliverables resolves every member of the
list. -/
theorem resolved_all_foldl (table : List (String × DeliverableConfig))
    (getPromptF : String → String) (provider : String → SynthesisResult) :
    ∀ (l : List String) (s : SynthState) (x : String), x ∈ l →
      resolvedIn
        (l.foldl (processDeliverable table getPromptF provider) s) x := by
  intro l
  induction l with
  | nil => intro s x h; exact absurd h (List.not_mem_nil x)
  | cons a rest ih =>
    intro s x h
    rw [List.foldl_cons]
    rcases List.mem_cons.mp h with h1 | h1
    · subst h1
      exact resolved_mono_foldl table getPromptF provider rest _ x
        (resolved_self_processDeliverable table getPromptF provider s x)
    · exact ih _ x h1

/-- Resolution is preserved by the outer level loop. -/
theorem resolved_mono_levels (table : List (String × DeliverableConfig))
    (getPromptF : String → String) (provider : String → SynthesisResult)
    (targets : List String) :
    ∀ (order : List (List String)) (s : SynthState) (x : String),
      resolvedIn s x →
      resolvedIn
        (order.foldl (runLevel table getPromptF provider targets) s) x := by
  intro order
  induction order with
  | nil => intro s x h; exact h
  | cons lvl rest ih =>
    intro s x h
    rw [List.foldl_cons]
    exact ih _ x (resolved_mono_foldl table getPromptF provider _ s x h)

/-- The outer level loop resolves every targeted member of every level it
runs. -/
theorem resolved_all_levels (table : List (String × DeliverableConfig))
    (getPromptF : String → String) (provider : String → SynthesisResult)
    (targets : List String) :
    ∀ (order : List (List String)) (s : SynthState) (x : String),
      x ∈ (order.map
        (fun lvl => lvl.filter (fun d => targets.contains d))).flatten →
      resolvedIn
        (order.foldl (runLevel table getPromptF provider targets) s) x := by
  intro order
  induction order with
  | nil => intro s x h; simp at h
  | cons lvl rest ih =>
    intro s x h
    rw [List.map_cons, List.flatten_cons] at h
    rw [List.foldl_cons]
    rcases List.mem_append.mp h with h1 | h1
    · exact resolved_mono_levels table getPromptF provider targets rest _ x
        (resolved_all_foldl table getPromptF provider _ s x h1)
    · exact ih _ x h1

/-- Claim C4: `GENERATION_ORDER` is a correct dependency layering of the
`DELIVERABLES` table — every non-sentinel prerequisite of a deliverable
placed in level `k` appears in some strictly earlier level — and
`synthesize` processes targets level by level: after any prefix of `k`
levels the processing trace is exactly the targeted members of those `k`
levels in level order, each of them already resolved (completed or
failed) before any later level begins; the full run is the
`GENERATION_ORDER.length` prefix. -/
theorem c4_topological_layering_and_level_order :
    (∀ p ∈ GENERATION_ORDER.enum, ∀ id ∈ p.2,
      ∀ dep ∈ dependenciesOf DELIVERABLES id, dep ≠ "ALL_MARKDOWN" →
        ∃ q ∈ GENERATION_ORDER.enum, q.1 < p.1 ∧ dep ∈ q.2) ∧
    (∀ (getPromptF : String → String) (provider : String → SynthesisResult)
      (targets : List String) (k : Nat),
      (levelPrefixRun getPromptF provider targets k).processed =
        levelPrefixIds targets k ∧
      ∀ id ∈ levelPrefixIds targets k,
        resolvedIn (levelPrefixRun getPromptF provider targets k) id) ∧
    (∀ (getPromptF : String → String) (provider : String → SynthesisResult)
      (deliverables? : Option (List String)),
      synthesizeRun DELIVERABLES GENERATION_ORDER getPromptF provider
          deliverables? =
        levelPrefixRun getPromptF provider
          (resolveTargets DELIVERABLES deliverables?)
          GENERATION_ORDER.length) := by
  refine ⟨by decide, ?_, ?_⟩
  · intro getPromptF provider targets k
    constructor
    · unfold levelPrefixRun levelPrefixIds
      rw [processed_levels]
      simp [initialSynthState]
    · intro id hmem
      unfold levelPrefixRun
      exact resolved_all_levels DELIVERABLES getPromptF provider targets _ _
        id hmem
  · intro getPromptF provider deliverables?
    unfold synthesizeRun levelPrefixRun
    rw [List.take_length]

/-- Witness for C4: after the first two levels with every provider call
failing, the processing trace is the first two levels and the level-one
deliverable `01_tech_inventory` is already resolved. -/
theorem c4_witness :
    (levelPrefixRun allPrompts failingProvider (markdownIds DELIVERABLES)
      2).processed = levelPrefixIds (markdownIds DELIVERABLES) 2 ∧
    resolvedIn
      (levelPrefixRun allPrompts failingProvider (markdownIds DELIVERABLES) 2)
      "01_tech_inventory" := by
  have h := c4_topological_layering_and_level_order.2.1 allPrompts
    failingProvider (markdownIds DELIVERABLES) 2
  exact ⟨h.1, h.2 "01_tech_inventory" (by decide)⟩

/-- Claim C2 (modelled from the spec, the Progress Tracker module being
absent from the source tree): every mutating Progress Tracker call
durably writes the mutated ledger with a write-temp-then-rename replace
before returning — at every crash point during the call the main ledger
file holds either the pre-call bytes or the complete post-call
serialization, never a truncation of it, and the final state reached
when the mutator returns holds the post-call serialization. -/
theorem c2_atomic_ledger_write (s : PipelineState) (d : LedgerDisk)
    (m : Mutator) :
    (∀ d2 ∈ mutatorCrashStates s d m,
      d2.main = d.main ∨
        d2.main = some (serializeLedger (applyMutator s m))) ∧
    (mutatorCrashStates s d m).getLast? =
      some { main := some (serializeLedger (applyMutator s m)),
             temp := none } := by
  constructor
  · intro d2 hmem
    unfold mutatorCrashStates at hmem
    rcases List.mem_cons.mp hmem with h1 | h1
    · subst h1
      exact Or.inl rfl
    · unfold atomicSaveStates at h1
      rcases List.mem_append.mp h1 with h2 | h2
      · unfold tempWriteStates at h2
        rcases List.mem_map.mp h2 with ⟨i, _, hback⟩
        rw [← hback]
        exact Or.inl rfl
      · rw [List.mem_singleton.mp h2]
        exact Or.inr rfl
  · unfold mutatorCrashStates atomicSaveStates
    rw [show (d :: (tempWriteStates d
        (serializeLedger (applyMutator s m)) ++
          [{ main := some (serializeLedger (applyMutator s m)),
             temp := none }])) =
      ((d :: tempWriteStates d (serializeLedger (applyMutator s m))) ++
        [{ main := some (serializeLedger (applyMutator s m)),
           temp := none }]) from rfl]
    exact List.getLast?_concat _



/-- Witness for C2 at a concrete ledger, disk and mutator: the pre-call
crash point satisfies the invariant and the returning state holds the
post-call serialization. -/
theorem c2_witness :
    (c2Disk.main = c2Disk.main ∨
      c2Disk.main = some (serializeLedger (applyMutator c2State c2Mutator))) ∧
    (mutatorCrashStates c2State c2Disk c2Mutator).getLast? =
      some { main := some (serializeLedger (applyMutator c2State c2Mutator)),
             temp := none } :=
  ⟨(c2_atomic_ledger_write c2State c2Disk c2Mutator).1 c2Disk
      (List.mem_cons_self c2Disk _),
    (c2_atomic_ledger_write c2State c2Disk c2Mutator).2⟩

/-- A record surviving a filter stays in the filtered dict after an
overwrite-or-append update whose new value also satisfies the filter. -/
theorem mem_fst_filter_assocSet {α : Type} (pred : String × α → Bool)
    (l : List (String × α)) (k x : String) (v : α)
    (hv : pred (k, v) = true)
    (h : x ∈ (l.filter pred).map Prod.fst) :
    x ∈ ((assocSet l k v).filter pred).map Prod.fst := by
  rcases List.mem_map.mp h with ⟨p, hpf, hfst⟩
  have hp := List.mem_filter.mp hpf
  unfold assocSet
  by_cases hany : l.any (fun q => q.1 == k)
  · rw [if_pos hany]
    by_cases hpk : p.1 == k
    · refine List.mem_map.mpr ⟨(k, v), ?_, ?_⟩
      · exact List.mem_filter.mpr
          ⟨List.mem_map.mpr ⟨p, hp.1, by simp [hpk]⟩, hv⟩
      · rw [← hfst]
        exact (eq_of_beq hpk).symm
    · refine List.mem_map.mpr ⟨p, ?_, hfst⟩
      exact List.mem_filter.mpr
        ⟨List.mem_map.mpr ⟨p, hp.1, by simp [hpk]⟩, hp.2⟩
  · rw [if_neg hany]
    refine List.mem_map.mpr ⟨p, ?_, hfst⟩
    exact List.mem_filter.mpr ⟨List.mem_append_left _ hp.1, hp.2⟩

/-- `complete_deliverable` never removes a deliverable from the completed
set. -/
theorem mem_completed_completeDeliverable (t : PipelineState)
    (id id2 path : String) (h : id ∈ getCompletedDeliverables t) :
    id ∈ getCompletedDeliverables (completeDeliverable t id2 path) := by
  unfold getCompletedDeliverables at h ⊢
  unfold completeDeliverable
  exact mem_fst_filter_assocSet _ t.deliverables id2 id
    { status := DeliverableStatus.completed, filePath := some path }
    rfl h

/-- A fold of `complete_deliverable` calls never removes a deliverable
from the completed set. -/
theorem mem_completed_fold :
    ∀ (l : List (String × String)) (t : PipelineState) (id : String),
      id ∈ getCompletedDeliverables t →
      id ∈ getCompletedDeliverables
        (l.foldl (fun acc p => completeDeliverable acc p.1 p.2) t) := by
  intro l
  induction l with
  | nil => intro t id h; exact h
  | cons a rest ih =>
    intro t id h
    rw [List.foldl_cons]
    exact ih _ id (mem_completed_completeDeliverable t id a.1 a.2 h)

/-- Claim C1, counterexample: from a persisted state in which the
markdown deliverable `01_tech_inventory` is recorded completed (and
another markdown deliverable is not), the resumed run issues a new
synthesis-provider call for `01_tech_inventory` and overwrites its
recorded content — the claimed idempotent resume fails on the code. -/
theorem c1_counterexample :
    "01_tech_inventory" ∈ getCompletedDeliverables c1Tracker ∧
    "01_tech_inventory" ∈
      (cmdResumeSynthesisStage allPrompts c1Provider c1Tracker
        c1Files).calls ∧
    assocFind c1Files c1Path = some "OLD CONTENT" ∧
    assocFind (cmdResumeSynthesisStage allPrompts c1Provider c1Tracker
      c1Files).files c1Path = some "generated 01_tech_inventory" := by
  refine ⟨by decide, by decide, rfl, by decide⟩

/-- Claim C1 as amended: the resumed run keeps the completed set a
superset of the persisted one, and only when every markdown deliverable
of the static table is already completed does it skip synthesis and
leave tracker, files and provider untouched; otherwise it re-runs the
whole synthesis phase with no target filter — its provider-call trace is
that of a full `synthesize` run over all markdown deliverables, so
already-completed deliverables are re-generated and their recorded
content may change. -/
theorem c1_resume_reruns_whole_synthesis_phase
    (getPromptF : String → String) (provider : String → SynthesisResult)
    (t : PipelineState) (fs : FileStore) :
    (∀ id ∈ getCompletedDeliverables t,
      id ∈ getCompletedDeliverables
        (cmdResumeSynthesisStage getPromptF provider t fs).tracker) ∧
    ((markdownIds DELIVERABLES).all
        (fun d => (getCompletedDeliverables t).contains d) = true →
      cmdResumeSynthesisStage getPromptF provider t fs =
        { tracker := t, files := fs, calls := [], ranSynthesis := false }) ∧
    ((markdownIds DELIVERABLES).all
        (fun d => (getCompletedDeliverables t).contains d) = false →
      (cmdResumeSynthesisStage getPromptF provider t fs).calls =
        (synthesizeRun DELIVERABLES GENERATION_ORDER getPromptF provider
          none).calls ∧
      (cmdResumeSynthesisStage getPromptF provider t fs).ranSynthesis =
        true) := by
  by_cases hall : (markdownIds DELIVERABLES).all
      (fun d => (getCompletedDeliverables t).contains d)
  · refine ⟨?_,
      fun _ => by simp only [cmdResumeSynthesisStage, hall, if_true], ?_⟩
    · intro id h
      simp only [cmdResumeSynthesisStage, hall, if_true]
      exact h
    · intro hfalse
      rw [hall] at hfalse
      exact Bool.noConfusion hfalse
  · have hallf := Bool.eq_false_iff.mpr hall
    refine ⟨?_, ?_, fun _ => ?_⟩
    · intro id h
      simp only [cmdResumeSynthesisStage, hallf, Bool.false_eq_true, if_false]
      exact mem_completed_fold _ t id h
    · intro htrue
      rw [hallf] at htrue
      exact Bool.noConfusion htrue
    · constructor
      · simp only [cmdResumeSynthesisStage, hallf, Bool.false_eq_true,
          if_false]
      · simp only [cmdResumeSynthesisStage, hallf, Bool.false_eq_true,
          if_false]

/-- Witness for the amended C1 at the concrete persisted state of the
counterexample scenario: the completed set is preserved and the full,
unfiltered synthesis phase is re-run. -/
theorem c1_witness :
    "01_tech_inventory" ∈ getCompletedDeliverables
      (cmdResumeSynthesisStage allPrompts c1Provider c1Tracker
        c1Files).tracker ∧
    (cmdResumeSynthesisStage allPrompts c1Provider c1Tracker c1Files).calls =
      (synthesizeRun DELIVERABLES GENERATION_ORDER allPrompts c1Provider
        none).calls ∧
    (cmdResumeSynthesisStage allPrompts c1Provider c1Tracker
      c1Files).ranSynthesis = true := by
  have h := c1_resume_reruns_whole_synthesis_phase allPrompts c1Provider
    c1Tracker c1Files
  exact ⟨h.1 "01_tech_inventory" (by decide), (h.2.2 (by decide)).1,
    (h.2.2 (by decide)).2⟩

end StrategyFactory
